import Mathlib

/-!
Shallow embedding of the Snake game (`ACGm.py`): grid/position model,
`Snake` entity, and the `SnakeGame` controller state machine.  Rendering,
fonts and the pygame event loop are presentation plumbing and are not
modelled; randomness of the food generator is modelled by passing the
freshly generated position as an explicit argument.  Python's `%` on
integers agrees with Lean's `Int.emod` for positive moduli, so `%` on
`Int` embeds the wrapping arithmetic faithfully.  Operations that index
`body[0]` (which would raise on an empty list in Python) return `Option`.
-/

namespace ACGm

def WINDOW_WIDTH : Int := 800
def WINDOW_HEIGHT : Int := 600
def GRID_SIZE : Int := 20
def GRID_WIDTH : Int := WINDOW_WIDTH / GRID_SIZE
def GRID_HEIGHT : Int := WINDOW_HEIGHT / GRID_SIZE

/-- Embedding of the `Direction` enum (`ACGm.py` lines 29-33). -/
inductive Direction where
  | up
  | down
  | left
  | right
deriving DecidableEq, Repr

/-- The `(dx, dy)` unit delta carried by each enum member. -/
def Direction.value : Direction → Int × Int
  | .up => (0, -1)
  | .down => (0, 1)
  | .left => (-1, 0)
  | .right => (1, 0)

/-- Embedding of the `Position` dataclass (`ACGm.py` lines 35-46): an integer pair. -/
structure Position where
  x : Int
  y : Int
deriving DecidableEq, Repr

/-- Embedding of `Position.__add__` (lines 41-43): adds the direction's unit delta.
Note: no wrapping happens here. -/
def Position.add (p : Position) (d : Direction) : Position :=
  ⟨p.x + d.value.1, p.y + d.value.2⟩

instance : HAdd Position Direction Position := ⟨Position.add⟩

/-- Embedding of `Position.__eq__` (lines 45-46): coordinate-wise comparison, as a
boolean, exactly as Python evaluates `==` on positions. -/
def Position.eqb (p q : Position) : Bool :=
  p.x == q.x && p.y == q.y

/-- The wrapping applied to the new head inside `Snake.update`
(lines 87-88): each axis reduced modulo the grid dimension. -/
def Position.wrap (p : Position) : Position :=
  ⟨p.x % GRID_WIDTH, p.y % GRID_HEIGHT⟩

/-- The `opposite` mapping built inside `Snake.set_direction`
(lines 108-113). -/
def Direction.opposite : Direction → Direction
  | .up => .down
  | .down => .up
  | .left => .right
  | .right => .left

/-- Embedding of `Snake` (lines 72-116): body (head first), committed direction,
intended next direction, pending growth flag. -/
structure Snake where
  body : List Position
  direction : Direction
  next_direction : Direction
  grow_pending : Bool
deriving DecidableEq, Repr

/-- Embedding of `Snake.__init__` (lines 74-79): single segment at the grid center,
heading right, no growth pending. -/
def Snake.init : Snake :=
  { body := [⟨GRID_WIDTH / 2, GRID_HEIGHT / 2⟩]
    direction := Direction.right
    next_direction := Direction.right
    grow_pending := false }

/-- Embedding of `Snake.update` (lines 81-95): commit the intended direction, compute
the new head with wrap-around, prepend it, then either pop the tail or
consume the pending growth flag.  `body[0]` on an empty body would raise
in Python, hence `Option`. -/
def Snake.update (s : Snake) : Option Snake :=
  match s.body with
  | [] => none
  | head :: rest =>
    let dir := s.next_direction
    let new_head := (Position.add head dir).wrap
    let inserted := new_head :: head :: rest
    if s.grow_pending then
      some { s with direction := dir, body := inserted, grow_pending := false }
    else
      some { s with direction := dir, body := inserted.dropLast }

/-- Embedding of `Snake.grow` (lines 97-99): only sets the pending flag. -/
def Snake.grow (s : Snake) : Snake :=
  { s with grow_pending := true }

/-- Embedding of `Snake.check_collision` (lines 101-104): `head in body[1:]`, using
`Position.__eq__`.  `Option` for the empty-body indexing error. -/
def Snake.check_collision (s : Snake) : Option Bool :=
  match s.body with
  | [] => none
  | head :: rest => some (rest.any (fun seg => Position.eqb head seg))

/-- Embedding of `Snake.set_direction` (lines 106-116): record the request only when
it is not the opposite of the committed current direction. -/
def Snake.set_direction (s : Snake) (d : Direction) : Snake :=
  if d ≠ s.direction.opposite then { s with next_direction := d } else s

/-- A burst of direction requests between two ticks, applied in order. -/
def Snake.setDirections (s : Snake) (ds : List Direction) : Snake :=
  ds.foldl Snake.set_direction s

/-- Embedding of the `GameState` enum (lines 132-135). -/
inductive GameState where
  | menu
  | playing
  | game_over
deriving DecidableEq, Repr

/-- The mutable state owned by `SnakeGame` (lines 139-152), minus the
pygame handles (screen, clock, fonts), which carry no game logic.  The
`Food` object is represented by its single `position` field. -/
structure Game where
  state : GameState
  snake : Snake
  food : Position
  score : Int
  high_score : Int
  running : Bool
deriving DecidableEq, Repr

/-- Embedding of `SnakeGame.start_game` (lines 181-186).  `newFood` is the position
the fresh `Food()` draws at random. -/
def SnakeGame.start_game (g : Game) (newFood : Position) : Game :=
  { g with snake := Snake.init, food := newFood, score := 0,
           state := GameState.playing }

/-- Embedding of `SnakeGame.update` (lines 188-205), one tick: bail out unless
Playing; advance the snake; on food collision grow / respawn / score;
then the self-collision check with the high-score max and the
transition to GameOver.  `newFood` is the position `food.respawn()`
draws at random. -/
def SnakeGame.update (g : Game) (newFood : Position) : Option Game :=
  if g.state ≠ GameState.playing then
    some g
  else
    match g.snake.update with
    | none => none
    | some s1 =>
      match s1.body with
      | [] => none
      | head :: _ =>
        let eaten := Position.eqb head g.food
        let s2 := if eaten then s1.grow else s1
        let food2 := if eaten then newFood else g.food
        let score2 := if eaten then g.score + 10 else g.score
        match s2.check_collision with
        | none => none
        | some collided =>
          if collided then
            some { g with snake := s2, food := food2, score := score2,
                          state := GameState.game_over,
                          high_score := if score2 > g.high_score then score2
                                        else g.high_score }
          else
            some { g with snake := s2, food := food2, score := score2 }

/-- All coordinates of a position lie on the grid. -/
def Position.inGrid (p : Position) : Prop :=
  0 ≤ p.x ∧ p.x < GRID_WIDTH ∧ 0 ≤ p.y ∧ p.y < GRID_HEIGHT

instance (p : Position) : Decidable p.inGrid :=
  inferInstanceAs (Decidable (0 ≤ p.x ∧ p.x < GRID_WIDTH ∧ 0 ≤ p.y ∧ p.y < GRID_HEIGHT))

/-- Every body segment lies on the grid. -/
def Snake.inBounds (s : Snake) : Prop :=
  ∀ p ∈ s.body, p.inGrid

instance (s : Snake) : Decidable s.inBounds :=
  inferInstanceAs (Decidable (∀ p ∈ s.body, p.inGrid))

/-! ## Concrete states used as test inputs -/

/-- A Playing game whose single-segment snake is about to move onto the
food at `(6,5)`. -/
def gameC1 : Game :=
  { state := GameState.playing
    snake := { body := [⟨5, 5⟩], direction := Direction.right,
               next_direction := Direction.right, grow_pending := false }
    food := ⟨6, 5⟩
    score := 0
    high_score := 0
    running := true }

/-- The snake of `gameC1` right after its movement step. -/
def snakeC1after : Snake :=
  { body := [⟨6, 5⟩], direction := Direction.right,
    next_direction := Direction.right, grow_pending := false }

/-- A Playing game whose snake runs into its own body on the next tick:
moving right from `(2,2)` lands on segment `(3,2)`. -/
def gameC7 : Game :=
  { state := GameState.playing
    snake := { body := [⟨2, 2⟩, ⟨3, 2⟩, ⟨3, 3⟩, ⟨2, 3⟩],
               direction := Direction.right,
               next_direction := Direction.right, grow_pending := false }
    food := ⟨9, 9⟩
    score := 30
    high_score := 10
    running := true }

/-- The state `gameC7` reaches after one tick: collision, GameOver, and
the high score raised to the score. -/
def gameC7' : Game :=
  { state := GameState.game_over
    snake := { body := [⟨3, 2⟩, ⟨2, 2⟩, ⟨3, 2⟩, ⟨3, 3⟩],
               direction := Direction.right,
               next_direction := Direction.right, grow_pending := false }
    food := ⟨9, 9⟩
    score := 30
    high_score := 30
    running := true }

/-- The state of `Snake.init` after one update: one step to the right. -/
def snakeS1 : Snake :=
  { body := [⟨21, 15⟩], direction := Direction.right,
    next_direction := Direction.right, grow_pending := false }

/-- The state of `snakeS1` after the burst `[left, up]` of requests and one update:
`left` is rejected by the 180°-turn guard, `up` is committed. -/
def snakeS3 : Snake :=
  { body := [⟨21, 14⟩], direction := Direction.up,
    next_direction := Direction.up, grow_pending := false }

/-! ## Basic lemmas about the embedded operations -/

theorem Position.eqb_iff (p q : Position) : Position.eqb p q = true ↔ p = q := by
  cases p
  cases q
  simp [Position.eqb, Position.mk.injEq]

theorem Direction.opposite_ne (d : Direction) : d.opposite ≠ d := by
  cases d <;> simp [Direction.opposite]

/-- Unfolding equation for `Snake.update` on a non-empty body. -/
theorem Snake.update_cons (s : Snake) (h : Position) (t : List Position)
    (hb : s.body = h :: t) :
    s.update =
      (if s.grow_pending then
        some { s with direction := s.next_direction,
                      body := (Position.add h s.next_direction).wrap :: h :: t,
                      grow_pending := false }
      else
        some { s with direction := s.next_direction,
                      body := ((Position.add h s.next_direction).wrap :: h :: t).dropLast }) := by
  unfold Snake.update
  rw [hb]

/-- A successful `Snake.update` commits the intended direction, keeps
the intended direction itself, and leaves the body non-empty. -/
theorem Snake.update_some (s s' : Snake) (hu : s.update = some s') :
    s'.direction = s.next_direction ∧ s'.next_direction = s.next_direction ∧
      s'.body ≠ [] := by
  obtain ⟨body, d, nd, gp⟩ := s
  cases body with
  | nil => simp [Snake.update] at hu
  | cons h t =>
    cases gp <;>
    · simp [Snake.update] at hu
      subst hu
      simp

/-- The operation `set_direction` never changes the body, the committed direction or
the growth flag. -/
theorem Snake.set_direction_frame (s : Snake) (d : Direction) :
    (s.set_direction d).body = s.body ∧
      (s.set_direction d).direction = s.direction ∧
      (s.set_direction d).grow_pending = s.grow_pending := by
  unfold Snake.set_direction
  split <;> simp

/-- Wrapping lands on the grid, since both grid dimensions are
positive. -/
theorem Position.wrap_inGrid (p : Position) : (p.wrap).inGrid :=
  ⟨Int.emod_nonneg _ (by decide), Int.emod_lt_of_pos _ (by decide),
   Int.emod_nonneg _ (by decide), Int.emod_lt_of_pos _ (by decide)⟩

/-- The guard invariant survives any burst of direction requests: the
committed direction never moves, and the intended direction never
becomes its opposite. -/
theorem Snake.setDirections_invariant (ds : List Direction) (s : Snake)
    (h : s.next_direction ≠ s.direction.opposite) :
    (s.setDirections ds).direction = s.direction ∧
      (s.setDirections ds).next_direction ≠ s.direction.opposite := by
  induction ds generalizing s with
  | nil => exact ⟨rfl, h⟩
  | cons d ds ih =>
    have hstep : s.setDirections (d :: ds) = (s.set_direction d).setDirections ds := rfl
    have hdir : (s.set_direction d).direction = s.direction :=
      (Snake.set_direction_frame s d).2.1
    have hnd : (s.set_direction d).next_direction ≠
        (s.set_direction d).direction.opposite := by
      unfold Snake.set_direction
      split
      · next hc => simpa using hc
      · exact h
    have hrec := ih (s.set_direction d) hnd
    rw [hstep, hrec.1, hdir]
    refine ⟨rfl, ?_⟩
    rw [← hdir]
    exact hrec.2

/-! ## Claim theorems -/

/-- C3: for every snake with non-empty body, `update()` keeps the body
length unchanged when no growth is pending, and after `grow()` it
increases the length by exactly 1 and clears the pending flag, so one
`grow()` affects exactly one subsequent `update()`. -/
theorem c3_growth_length (s : Snake) (h : Position) (t : List Position)
    (hb : s.body = h :: t) :
    (s.grow_pending = false →
      ∃ s', s.update = some s' ∧ s'.body.length = s.body.length ∧
        s'.grow_pending = false)
    ∧ (∃ s', (s.grow).update = some s' ∧
        s'.body.length = s.body.length + 1 ∧ s'.grow_pending = false) := by
  constructor
  · intro hgp
    refine ⟨{ s with
              direction := s.next_direction,
              body := ((Position.add h s.next_direction).wrap :: h :: t).dropLast },
            ?_, ?_, hgp⟩
    · rw [Snake.update_cons s h t hb, hgp]
      simp
    · simp [hb]
  · have hb' : (s.grow).body = h :: t := hb
    refine ⟨{ s with
              direction := s.next_direction,
              body := (Position.add h s.next_direction).wrap :: h :: t,
              grow_pending := false }, ?_, ?_, rfl⟩
    · rw [Snake.update_cons (s.grow) h t hb']
      simp [Snake.grow]
    · simp [hb]

/-- Witness for C3 at a concrete two-segment snake. -/
theorem c3_growth_length_witness :
    ∃ s', (({ body := [⟨1, 1⟩, ⟨0, 1⟩], direction := Direction.right,
              next_direction := Direction.right,
              grow_pending := false } : Snake)).grow.update = some s' ∧
      s'.body.length = 3 ∧ s'.grow_pending = false := by
  have := (c3_growth_length
      ⟨[⟨1, 1⟩, ⟨0, 1⟩], Direction.right, Direction.right, false⟩
      ⟨1, 1⟩ [⟨0, 1⟩] rfl).2
  simpa using this

/-- C4: `set_direction d` commits the request to `next_direction` iff
`d` is not the opposite of the current heading, is a silent no-op
otherwise, and for `d ≠ opposite(current)` a subsequent `update()`
changes the heading to `d`. -/
theorem c4_turn_guard (s : Snake) (d : Direction) :
    (d ≠ s.direction.opposite → s.set_direction d = { s with next_direction := d })
    ∧ (d = s.direction.opposite → s.set_direction d = s)
    ∧ (∀ (h : Position) (t : List Position), s.body = h :: t →
        d ≠ s.direction.opposite →
        ∃ s', (s.set_direction d).update = some s' ∧ s'.direction = d) := by
  refine ⟨?_, ?_, ?_⟩
  · intro hne
    simp [Snake.set_direction, hne]
  · intro he
    simp [Snake.set_direction, he]
  · intro h t hb hne
    have hb' : (s.set_direction d).body = h :: t := by
      rw [(Snake.set_direction_frame s d).1, hb]
    have hnd : (s.set_direction d).next_direction = d := by
      simp [Snake.set_direction, hne]
    rw [Snake.update_cons _ h t hb']
    split <;> exact ⟨_, rfl, hnd⟩

/-- Witness for C4: requesting `up` while heading right. -/
theorem c4_turn_guard_witness :
    ∃ s', ((({ body := [⟨3, 3⟩], direction := Direction.right,
               next_direction := Direction.right,
               grow_pending := false } : Snake)).set_direction
            Direction.up).update = some s' ∧ s'.direction = Direction.up := by
  exact (c4_turn_guard
      ⟨[⟨3, 3⟩], Direction.right, Direction.right, false⟩
      Direction.up).2.2 ⟨3, 3⟩ [] rfl (by decide)

/-- C5: for every snake with non-empty body, `check_collision` returns
true iff the head position equals some other body segment's position,
position equality being coordinate-wise. -/
theorem c5_collision_iff (s : Snake) (h : Position) (t : List Position)
    (hb : s.body = h :: t) :
    (s.check_collision = some true ↔ ∃ q ∈ t, h = q) := by
  unfold Snake.check_collision
  rw [hb]
  simp [List.any_eq_true, Position.eqb_iff]

/-- Witness for C5: artificial body `[(1,1),(2,1),(1,1)]` whose head
recurs, and the collision check fires. -/
theorem c5_collision_iff_witness :
    (({ body := [⟨1, 1⟩, ⟨2, 1⟩, ⟨1, 1⟩], direction := Direction.right,
        next_direction := Direction.right,
        grow_pending := false } : Snake)).check_collision = some true := by
  rw [c5_collision_iff
      ⟨[⟨1, 1⟩, ⟨2, 1⟩, ⟨1, 1⟩], Direction.right, Direction.right, false⟩
      ⟨1, 1⟩ [⟨2, 1⟩, ⟨1, 1⟩] rfl]
  exact ⟨⟨1, 1⟩, by simp, rfl⟩

/-- C9: in any state other than Playing, a controller tick changes
nothing at all: the game record is returned untouched. -/
theorem c9_non_playing_frame (g : Game) (f : Position)
    (h : g.state = GameState.menu ∨ g.state = GameState.game_over) :
    SnakeGame.update g f = some g := by
  have hne : g.state ≠ GameState.playing := by
    rcases h with h | h <;> simp [h]
  simp [SnakeGame.update, hne]

/-- Witness for C9 at a concrete Menu-state game. -/
theorem c9_non_playing_frame_witness :
    SnakeGame.update
      { state := GameState.menu, snake := Snake.init, food := ⟨0, 0⟩,
        score := 0, high_score := 0, running := true } ⟨5, 5⟩ =
      some { state := GameState.menu, snake := Snake.init, food := ⟨0, 0⟩,
             score := 0, high_score := 0, running := true } :=
  c9_non_playing_frame _ _ (Or.inl rfl)

/-- C2 counterexample: at the rightmost column, `p + d` does not wrap.
`Position.__add__` returns `x = GRID_WIDTH`, outside the grid; the
wrapped value the claim promises is different. -/
theorem c2_counterexample :
    ((⟨GRID_WIDTH - 1, 0⟩ : Position) + Direction.right ≠
      ⟨(GRID_WIDTH - 1 + 1) % GRID_WIDTH, (0 : Int) % GRID_HEIGHT⟩)
    ∧ ¬ (((⟨GRID_WIDTH - 1, 0⟩ : Position) + Direction.right).x < GRID_WIDTH) := by
  decide

/-- C2 (amended): `p + d` adds the direction's unit delta without any
wrapping; the modulo wrap is applied afterwards inside `Snake.update`,
so the head committed by an update is the toroidally wrapped sum. -/
theorem c2_add_then_wrap (p : Position) (d : Direction) (s : Snake)
    (h : Position) (t : List Position) (hb : s.body = h :: t) :
    (p + d) = ⟨p.x + d.value.1, p.y + d.value.2⟩
    ∧ ∃ s', s.update = some s' ∧
        s'.body.head? = some
          ⟨(h.x + s.next_direction.value.1) % GRID_WIDTH,
           (h.y + s.next_direction.value.2) % GRID_HEIGHT⟩ := by
  refine ⟨rfl, ?_⟩
  rw [Snake.update_cons s h t hb]
  split
  · exact ⟨_, rfl, rfl⟩
  · exact ⟨_, rfl, rfl⟩

/-- Witness for C2 (amended) at the centered initial snake. -/
theorem c2_add_then_wrap_witness :
    ((⟨0, 0⟩ : Position) + Direction.right = ⟨1, 0⟩)
    ∧ ∃ s', Snake.init.update = some s' ∧
        s'.body.head? = some ⟨21 % GRID_WIDTH, 15 % GRID_HEIGHT⟩ := by
  have h2 := (c2_add_then_wrap ⟨0, 0⟩ Direction.right Snake.init
      ⟨GRID_WIDTH / 2, GRID_HEIGHT / 2⟩ [] rfl).2
  refine ⟨by decide, ?_⟩
  simpa [Direction.value] using h2

/-- C8: from Menu or GameOver, the start signal produces Playing with a
fresh centered length-1 snake heading right, fresh food, score 0, and
leaves the high score and the running flag untouched. -/
theorem c8_start_game (g : Game) (f : Position)
    (h : g.state = GameState.menu ∨ g.state = GameState.game_over) :
    SnakeGame.start_game g f =
      { g with snake := Snake.init, food := f, score := 0,
               state := GameState.playing }
    ∧ Snake.init.body = [⟨GRID_WIDTH / 2, GRID_HEIGHT / 2⟩]
    ∧ Snake.init.body.length = 1
    ∧ Snake.init.direction = Direction.right
    ∧ (SnakeGame.start_game g f).high_score = g.high_score
    ∧ (SnakeGame.start_game g f).running = g.running :=
  ⟨rfl, rfl, rfl, rfl, rfl, rfl⟩

/-- Witness for C8 at a concrete Menu-state game. -/
theorem c8_start_game_witness :
    SnakeGame.start_game
      { state := GameState.menu, snake := Snake.init, food := ⟨0, 0⟩,
        score := 7, high_score := 40, running := true } ⟨2, 3⟩ =
      { state := GameState.playing, snake := Snake.init, food := ⟨2, 3⟩,
        score := 0, high_score := 40, running := true } :=
  (c8_start_game
    { state := GameState.menu, snake := Snake.init, food := ⟨0, 0⟩,
      score := 7, high_score := 40, running := true } ⟨2, 3⟩ (Or.inl rfl)).1

/-- C10: whatever burst of `set_direction` requests happens between two
consecutive successful updates, the heading committed by the second
update is never the opposite of the heading committed by the first. -/
theorem c10_no_reversal (s0 s1 : Snake) (h1 : s0.update = some s1)
    (ds : List Direction) (s3 : Snake)
    (h3 : (s1.setDirections ds).update = some s3) :
    s3.direction ≠ s1.direction.opposite := by
  obtain ⟨hd1, hn1, -⟩ := Snake.update_some s0 s1 h1
  have hinv : s1.next_direction ≠ s1.direction.opposite := by
    rw [hn1, hd1]
    exact fun hc => Direction.opposite_ne _ hc.symm
  have hfold := Snake.setDirections_invariant ds s1 hinv
  obtain ⟨hd3, -, -⟩ := Snake.update_some _ s3 h3
  rw [hd3]
  exact hfold.2

/-- Witness for C10: after one update heading right, the burst
`[left, up]` commits `up`, not `left`. -/
theorem c10_no_reversal_witness :
    Snake.init.update = some snakeS1 ∧
    (snakeS1.setDirections [Direction.left, Direction.up]).update = some snakeS3 ∧
    snakeS3.direction ≠ snakeS1.direction.opposite :=
  ⟨by decide, by decide,
   c10_no_reversal Snake.init snakeS1 (by decide)
     [Direction.left, Direction.up] snakeS3 (by decide)⟩

/-- C6: the initial snake is in bounds; an update on an in-bounds snake
succeeds, commits `wrap(head + direction)` as the new head, and keeps
every segment in `[0,width) × [0,height)`; `set_direction` and `grow`
also preserve the in-bounds invariant. -/
theorem c6_in_bounds :
    Snake.init.inBounds
    ∧ (∀ (s : Snake) (h : Position) (t : List Position),
        s.body = h :: t → s.inBounds →
        ∃ s', s.update = some s' ∧ s'.inBounds ∧
          s'.body.head? = some ((Position.add h s'.direction).wrap))
    ∧ (∀ (s : Snake) (d : Direction), s.inBounds →
        (s.set_direction d).inBounds ∧ (s.grow).inBounds) := by
  refine ⟨by decide, ?_, ?_⟩
  · intro s h t hb hin
    rw [Snake.update_cons s h t hb]
    split
    · refine ⟨_, rfl, ?_, rfl⟩
      intro p hp
      rcases List.mem_cons.mp hp with hph | hpt
      · subst hph
        exact Position.wrap_inGrid _
      · exact hin p (by rw [hb]; exact hpt)
    · refine ⟨_, rfl, ?_, rfl⟩
      intro p hp
      have hp' := List.mem_of_mem_dropLast hp
      rcases List.mem_cons.mp hp' with hph | hpt
      · subst hph
        exact Position.wrap_inGrid _
      · exact hin p (by rw [hb]; exact hpt)
  · intro s d hin
    refine ⟨?_, ?_⟩
    · intro p hp
      rw [(Snake.set_direction_frame s d).1] at hp
      exact hin p hp
    · intro p hp
      exact hin p hp

/-- Witness for C6 at the initial snake. -/
theorem c6_in_bounds_witness :
    Snake.init.inBounds ∧
    ∃ s', Snake.init.update = some s' ∧ s'.inBounds ∧
      s'.body.head? = some
        ((Position.add ⟨GRID_WIDTH / 2, GRID_HEIGHT / 2⟩ s'.direction).wrap) :=
  ⟨c6_in_bounds.1,
   c6_in_bounds.2.1 Snake.init ⟨GRID_WIDTH / 2, GRID_HEIGHT / 2⟩ [] rfl
     (by decide)⟩

/-- C1 counterexample: in `gameC1` the tick eats the food (score goes
up by 10), yet the body the collision check examines has length 1, not
the pre-move length plus 1: `grow()` only sets a flag, so this tick's
collision check does not see any length increase from the food just
eaten. -/
theorem c1_counterexample :
    ((SnakeGame.update gameC1 ⟨0, 0⟩).map (fun g => g.score) =
      some (gameC1.score + 10))
    ∧ ¬ ((SnakeGame.update gameC1 ⟨0, 0⟩).map (fun g => g.snake.body.length) =
      some (gameC1.snake.body.length + 1)) := by
  decide

/-- C1 (amended): a Playing tick advances the snake first; if the new
head equals the food it marks growth pending (the body itself is
unchanged — the extra segment appears on the next update), respawns the
food and adds 10 to the score; the collision check then runs on that
post-move, still-unlengthened body. -/
theorem c1_tick_order (g : Game) (f : Position) (s1 : Snake)
    (hplay : g.state = GameState.playing)
    (hup : g.snake.update = some s1)
    (head : Position) (rest : List Position)
    (hbody : s1.body = head :: rest)
    (heat : Position.eqb head g.food = true) :
    ∃ g', SnakeGame.update g f = some g' ∧
      g'.snake = s1.grow ∧
      g'.snake.body = s1.body ∧
      g'.snake.grow_pending = true ∧
      g'.food = f ∧
      g'.score = g.score + 10 ∧
      (g'.state = GameState.game_over ↔ s1.grow.check_collision = some true) := by
  obtain ⟨b1, d1, nd1, gp1⟩ := s1
  have hb : b1 = head :: rest := hbody
  subst hb
  unfold SnakeGame.update
  rw [if_neg (by simp [hplay]), hup]
  cases hany : rest.any (fun seg => Position.eqb head seg) with
  | true =>
    refine ⟨{ g with
              snake := ⟨head :: rest, d1, nd1, true⟩,
              food := f,
              score := g.score + 10,
              state := GameState.game_over,
              high_score := if g.score + 10 > g.high_score then g.score + 10
                            else g.high_score }, ?_, rfl, rfl, rfl, rfl, rfl, ?_⟩
    · simp [Snake.grow, Snake.check_collision, heat, hany]
    · exact iff_of_true rfl (by simp [Snake.grow, Snake.check_collision, hany])
  | false =>
    refine ⟨{ g with
              snake := ⟨head :: rest, d1, nd1, true⟩,
              food := f,
              score := g.score + 10 }, ?_, rfl, rfl, rfl, rfl, rfl, ?_⟩
    · simp [Snake.grow, Snake.check_collision, heat, hany]
    · refine iff_of_false ?_ ?_
      · rw [hplay]
        simp
      · simp [Snake.grow, Snake.check_collision, hany]

/-- Witness for C1 (amended) at `gameC1`. -/
theorem c1_tick_order_witness :
    ∃ g', SnakeGame.update gameC1 ⟨0, 0⟩ = some g' ∧
      g'.snake = snakeC1after.grow ∧
      g'.snake.body = snakeC1after.body ∧
      g'.snake.grow_pending = true ∧
      g'.food = ⟨0, 0⟩ ∧
      g'.score = gameC1.score + 10 ∧
      (g'.state = GameState.game_over ↔
        snakeC1after.grow.check_collision = some true) :=
  c1_tick_order gameC1 ⟨0, 0⟩ snakeC1after rfl (by decide) ⟨6, 5⟩ [] rfl
    (by decide)

/-- C7: if a Playing tick ends with a self-colliding snake, the state
becomes GameOver and the high score becomes `max(highScore, score)`;
moreover no tick and no game start ever decreases the high score. -/
theorem c7_high_score (g : Game) (f : Position) (g' : Game)
    (hup : SnakeGame.update g f = some g') :
    (g.state = GameState.playing → g'.snake.check_collision = some true →
      g'.state = GameState.game_over ∧
      g'.high_score = max g.high_score g'.score)
    ∧ g.high_score ≤ g'.high_score
    ∧ (SnakeGame.start_game g f).high_score = g.high_score := by
  by_cases hst : g.state = GameState.playing
  · unfold SnakeGame.update at hup
    rw [if_neg (by simp [hst])] at hup
    cases hsu : g.snake.update with
    | none =>
      rw [hsu] at hup
      exact absurd hup (by simp)
    | some s1 =>
      rw [hsu] at hup
      obtain ⟨b1, d1, nd1, gp1⟩ := s1
      cases b1 with
      | nil => simp at hup
      | cons head rest =>
        cases heat : Position.eqb head g.food with
        | true =>
          cases hany : rest.any (fun seg => Position.eqb head seg) with
          | true =>
            simp [Snake.grow, Snake.check_collision, heat, hany] at hup
            subst hup
            refine ⟨fun _ _ => ⟨rfl, ?_⟩, ?_, rfl⟩
            · show (if g.score + 10 > g.high_score then g.score + 10
                    else g.high_score) = max g.high_score (g.score + 10)
              split <;> omega
            · show g.high_score ≤ (if g.score + 10 > g.high_score
                    then g.score + 10 else g.high_score)
              split <;> omega
          | false =>
            simp [Snake.grow, Snake.check_collision, heat, hany] at hup
            subst hup
            refine ⟨fun _ hcol => ?_, le_refl _, rfl⟩
            exact absurd hcol (by simp [Snake.check_collision, hany])
        | false =>
          cases hany : rest.any (fun seg => Position.eqb head seg) with
          | true =>
            simp [Snake.check_collision, heat, hany] at hup
            subst hup
            refine ⟨fun _ _ => ⟨rfl, ?_⟩, ?_, rfl⟩
            · show (if g.score > g.high_score then g.score
                    else g.high_score) = max g.high_score g.score
              split <;> omega
            · show g.high_score ≤ (if g.score > g.high_score
                    then g.score else g.high_score)
              split <;> omega
          | false =>
            simp [Snake.check_collision, heat, hany] at hup
            subst hup
            refine ⟨fun _ hcol => ?_, le_refl _, rfl⟩
            exact absurd hcol (by simp [Snake.check_collision, hany])
  · rw [SnakeGame.update, if_pos (by simp [hst])] at hup
    have hg : g = g' := by
      exact Option.some.inj hup
    subst hg
    exact ⟨fun hcontra => absurd hcontra hst, le_refl _, rfl⟩

/-- Witness for C7: `gameC7` self-collides on the tick, ends GameOver
with the high score raised to 30. -/
theorem c7_high_score_witness :
    (gameC7.state = GameState.playing →
      gameC7'.snake.check_collision = some true →
      gameC7'.state = GameState.game_over ∧
      gameC7'.high_score = max gameC7.high_score gameC7'.score)
    ∧ gameC7.high_score ≤ gameC7'.high_score
    ∧ (SnakeGame.start_game gameC7 ⟨0, 0⟩).high_score = gameC7.high_score :=
  c7_high_score gameC7 ⟨0, 0⟩ gameC7' (by decide)

end ACGm
